import Mathlib

/-!
Verification of the recipe scaling and lookup engine of `main.py`
(terminal recipe manager).

The numeric model: Python floats are embedded as exact rationals (`ℚ`);
quantities entered and stored by the program are decimal literals, and the
claims under scrutiny concern the real-valued scaling and formatting rules,
so exact rational arithmetic is the faithful spec-level reading
(the spec itself speaks of "positive real" quantities and of exactness
"within floating-point tolerance").

Python string primitives (`lower`, `strip`, `replace`, `find`, `in`) are
embedded as executable functions on `List Char` / `String` below; each
definition's comment cites the source lines it translates.
-/

namespace Recipes

/-! ## Python string primitives -/

/-- Embeds Python `str.lower()`: per-character lowercasing
(ASCII-faithful; used on recipe names and search terms). -/
def pyLower (s : String) : String :=
  (s.data.map Char.toLower).asString

/-- Embeds Python `str.strip()`: remove whitespace from both ends. -/
def pyStrip (s : String) : String :=
  (((s.data.dropWhile Char.isWhitespace).reverse.dropWhile Char.isWhitespace).reverse).asString

/-- Embeds CPython `str.find`: index of the first (leftmost) occurrence of
`pat` as a contiguous substring of `hay`, scanning left to right;
`none` plays the role of Python's `-1`.  Python's substring test
`pat in hay` holds exactly when `find` succeeds. -/
def firstIdx : List Char → List Char → Option Nat
  | [], pat => if pat.isPrefixOf ([] : List Char) then some 0 else none
  | c :: t, pat =>
    if pat.isPrefixOf (c :: t) then some 0
    else (firstIdx t pat).map (· + 1)

/-- String-level wrapper of `firstIdx` (Python `hay.find(pat)`). -/
def strFind (hay pat : String) : Option Nat :=
  firstIdx hay.data pat.data

/-- Embeds Python `pat in hay` (substring containment). -/
def strContains (hay pat : String) : Bool :=
  (strFind hay pat).isSome

/-- Fuel-indexed worker for `replaceAll`; the fuel is an upper bound on the
number of characters still to be consumed, so `replaceAll` below never
exhausts it. -/
def replaceAllAux (pat rep : List Char) : Nat → List Char → List Char
  | _, [] => []
  | 0, s => s
  | fuel + 1, c :: t =>
    if pat ≠ [] ∧ pat.isPrefixOf (c :: t) then
      rep ++ replaceAllAux pat rep fuel ((c :: t).drop pat.length)
    else
      c :: replaceAllAux pat rep fuel t

/-- Embeds Python `s.replace(pat, rep)` for a non-empty pattern: replace
every occurrence of `pat` in `s` by `rep`, scanning left to right,
non-overlapping.  (Python's empty-pattern behaviour is irrelevant here:
the program only uses the patterns `" "` and `".json"`.) -/
def replaceAll (pat rep s : List Char) : List Char :=
  replaceAllAux pat rep s.length s

/-- String-level wrapper of `replaceAll`. -/
def pyReplace (s pat rep : String) : String :=
  (replaceAll pat.data rep.data s.data).asString

/-! ## Data model

`main.py` stores each recipe as a JSON object with keys `name`, `notes`,
`ingredients` (a list of objects with keys `name`, `quantity`, `unit`) and
`created_date`; every read goes through `dict.get(key, default)`, so each
field is modelled as an `Option` with the `get` default applied at each
use site, exactly as in the source. -/

structure Ingredient where
  name : Option String
  quantity : Option ℚ
  unit : Option String
deriving DecidableEq, Repr

structure RecipeData where
  name : Option String
  notes : Option String
  ingredients : Option (List Ingredient)
  created_date : Option String
deriving DecidableEq, Repr

/-! ## Quantity formatting (lines 280-288, 495-501 and 758-766) -/

/-- Embeds Python `int(q)` on a float value: truncation toward zero. -/
def pyTrunc (q : ℚ) : ℤ :=
  q.num.tdiv (q.den : ℤ)

/-- Rounds `n / d` (with `d > 0`) to the nearest natural number, ties to
even: the rounding CPython's fixed-point `format` applies to the (here
exact) value being rendered. -/
def roundHalfEvenFrac (n d : Nat) : Nat :=
  let q0 := n / d
  let r := n % d
  if 2 * r < d then q0
  else if d < 2 * r then q0 + 1
  else if q0 % 2 = 0 then q0 else q0 + 1

/-- Embeds Python `f"{q:.precf}"`: fixed-point rendering of `q` with
`prec` digits after the decimal point (sign, then the rounded magnitude
with the fractional part zero-padded to `prec` digits). -/
def pyFormatF (prec : Nat) (q : ℚ) : String :=
  let m := roundHalfEvenFrac (q.num.natAbs * 10 ^ prec) q.den
  let ip := m / 10 ^ prec
  let fp := m % 10 ^ prec
  let fpStr := toString fp
  let fpPad := (List.replicate (prec - fpStr.length) '0').asString ++ fpStr
  (if q < 0 then "-" else "") ++ toString ip ++
    (if prec = 0 then "" else "." ++ fpPad)

/-- Embeds Python `.rstrip("0").rstrip(".")`: drop trailing zero digits,
then a trailing decimal point. -/
def stripTrailing (s : String) : String :=
  (((s.data.reverse.dropWhile (· = '0')).dropWhile (· = '.')).reverse).asString

/-- The literal `0.1` of line 763, as an exact rational. -/
def ratPointOne : ℚ := ⟨1, 10, by norm_num, by norm_num⟩

/-- Quantity formatter of `display_recipe_preview`, lines 282-286:
`if qty == int(qty): str(int(qty)) else: f"{qty:.2f}".rstrip("0").rstrip(".")`. -/
def formatQtyPreview (q : ℚ) : String :=
  if q = (pyTrunc q : ℚ) then toString (pyTrunc q)
  else stripTrailing (pyFormatF 2 q)

/-- Quantity formatter of `display_full_recipe`, lines 496-501 (same text
as the preview site). -/
def formatQtyFull (q : ℚ) : String :=
  if q = (pyTrunc q : ℚ) then toString (pyTrunc q)
  else stripTrailing (pyFormatF 2 q)

/-- Quantity formatter of `perform_recipe_calculation`, lines 758-766:
integers unchanged, then a 3-decimal branch for scaled quantities below
`0.1`, otherwise 2 decimals, trailing zeros and point stripped. -/
def formatScaledQty (q : ℚ) : String :=
  if q = (pyTrunc q : ℚ) then toString (pyTrunc q)
  else if q < ratPointOne then stripTrailing (pyFormatF 3 q)
  else stripTrailing (pyFormatF 2 q)

/-! ## Scaling engine (`perform_recipe_calculation`, lines 696-783) -/

/-- Failure kinds of the scaling path, in the spec's taxonomy (§7), plus
the raw Python exception raised by an unguarded zero division:
`NoIngredients` is the rejection at lines 703-705, `InvalidInput` the
rejection of a non-positive target at lines 725-727, and `ZeroDivision`
the `ZeroDivisionError` Python raises at line 733 when the stored base
quantity is `0`. -/
inductive CalcError where
  | NoIngredients
  | InvalidInput
  | ZeroDivision
deriving DecidableEq, Repr

/-- One attempt of the input loop at lines 719-730: a parsed candidate
target is rejected when non-positive ("Please enter a positive number.",
line 726, the loop re-prompts); the printed rejection is surfaced as the
spec's `InvalidInput`. -/
def validateUserTarget (t : ℚ) : Except CalcError ℚ :=
  if t ≤ 0 then .error .InvalidInput else .ok t

/-- One step of the scaling loop, lines 750-756: name and unit are passed
through (with the `dict.get` defaults of lines 751-753) and the scaled
quantity is `ingredient.get("quantity", 0) * scaling_factor`. -/
def scaleIngredient (factor : ℚ) (ing : Ingredient) : String × ℚ × String :=
  (ing.name.getD "Unknown", ing.quantity.getD 0 * factor, ing.unit.getD "")

/-- The scaling loop over the whole ingredient list (lines 750-768),
before display formatting: one output row per input ingredient, in input
order. -/
def scaleIngredients (ingredients : List Ingredient) (factor : ℚ) :
    List (String × ℚ × String) :=
  ingredients.map (scaleIngredient factor)

/-- Structured result of a successful calculation: the scaling factor of
line 733 and the rows of the scaled table (name, formatted amount, unit)
of lines 750-768. -/
structure CalcResult where
  scalingFactor : ℚ
  rows : List (String × String × String)
deriving DecidableEq, Repr

/-- Embeds `perform_recipe_calculation(recipe_data)` (lines 696-770) with
the user's parsed target amount as the second argument:
reject an empty ingredient list (lines 703-705); read the base quantity
with default `1.0` (line 710); validate the target (lines 719-730);
compute `scaling_factor = user_quantity / base_quantity` (line 733, a
Python `ZeroDivisionError` when the stored base quantity is zero); scale
and format every ingredient (lines 750-768). -/
def performRecipeCalculation (recipe : RecipeData) (userTarget : ℚ) :
    Except CalcError CalcResult :=
  match recipe.ingredients.getD [] with
  | [] => .error .NoIngredients
  | base :: rest =>
    let baseQuantity := base.quantity.getD 1
    match validateUserTarget userTarget with
    | .error e => .error e
    | .ok userQuantity =>
      if baseQuantity = 0 then .error .ZeroDivision
      else
        let factor := userQuantity / baseQuantity
        .ok { scalingFactor := factor
              rows := (scaleIngredients (base :: rest) factor).map
                (fun r => (r.1, formatScaledQty r.2.1, r.2.2)) }

/-! ## Search / filter engine (lines 581-598 and 626-636 of
`calculate_recipe`; the same text occurs at lines 346-363 and 394-405 of
`view_recipes`) -/

/-- Display name of a loaded entry `(filename, recipe_data)`:
`recipe_data.get("name", filename.replace(".json", ""))` (line 587). -/
def entryDisplayName (e : String × RecipeData) : String :=
  e.2.name.getD (pyReplace e.1 ".json" "")

/-- The filter's containment test (lines 586-587):
`search_term.lower() in name.lower()`. -/
def strContainsCI (name term : String) : Bool :=
  strContains (pyLower name) (pyLower term)

/-- The filter comprehension of lines 583-588: keep the entries whose
display name contains the search term case-insensitively. -/
def filterRecipes (all : List (String × RecipeData)) (term : String) :
    List (String × RecipeData) :=
  all.filter (fun e => strContainsCI (entryDisplayName e) term)

/-- The surrounding presentation flow (lines 581-598): the filter is only
applied to a non-empty entered term, and when it matches nothing the
*caller* prints "No recipes found matching ... Showing all recipes" and
falls back to the unfiltered list (lines 595-598). -/
def displayedRecipes (all : List (String × RecipeData)) (term : String) :
    List (String × RecipeData) :=
  if term = "" then all
  else
    let f := filterRecipes all term
    if f.isEmpty then all else f

/-- The highlighting span of lines 626-636: for a non-empty term contained
case-insensitively in the name, `start_idx = name.lower().find(term.lower())`
and `end_idx = start_idx + len(term)`; no span otherwise. -/
def matchSpan (name term : String) : Option (Nat × Nat) :=
  if term = "" then none
  else if strContainsCI name term then
    match strFind (pyLower name) (pyLower term) with
    | some s => some (s, s + term.length)
    | none => none
  else none

/-! ## Recipe store (`new_recipe`, lines 120-252) -/

/-- State of the backing store: whether the `Saved Recipes` directory
exists, and the JSON files in it, keyed by filename. -/
structure Store where
  dirExists : Bool
  files : String → Option RecipeData

/-- Failure kind of the save path, in the spec's taxonomy (§7). -/
inductive SaveError where
  | AlreadyExists
deriving DecidableEq, Repr

/-- Identifier derivation, lines 134-140:
`Prompt.ask(...).lower().strip().replace(" ", "-")`. -/
def deriveRecipeIdentifier (name : String) : String :=
  pyReplace (pyStrip (pyLower name)) " " "-"

/-- Resource key, line 146: `filename = f"{recipe_name}.json"`. -/
def resourceKey (identifier : String) : String :=
  identifier ++ ".json"

/-- Persistence portion of `new_recipe`: ensure the backing directory
(lines 127-131, `os.makedirs` when missing), check for an existing file
(lines 145-155) and honour the overwrite confirmation — declining leaves
the store untouched ("Recipe creation cancelled"), which the spec calls
`AlreadyExists` — then write the record (lines 239-250; the final "Save
this recipe?" confirmation is taken as given). -/
def save (st : Store) (identifier : String) (recipe : RecipeData)
    (overwrite : Bool) : Store × Option SaveError :=
  let st1 : Store := { st with dirExists := true }
  let filename := resourceKey identifier
  if (st1.files filename).isSome ∧ overwrite = false then
    (st1, some .AlreadyExists)
  else
    ({ st1 with files := fun k => if k = filename then some recipe else st1.files k },
     none)

/-- Loading a stored record by identifier (the `json.load` of the
view/calculate flows, lines 319-323 and 551-556, restricted to one key). -/
def load (st : Store) (identifier : String) : Option RecipeData :=
  st.files (resourceKey identifier)

/-! ## Concrete instances for witnesses and counterexamples -/

/-- Stored base ingredient with quantity `2` (C1 witness). -/
def claim1Ing : Ingredient := ⟨some "flour", some 2, some "cups"⟩

/-- Recipe whose base ingredient is `claim1Ing` (C1 witness). -/
def claim1Recipe : RecipeData := ⟨some "cake", none, some [claim1Ing], none⟩

/-- Stored base ingredient with the degenerate quantity `-2` (C1
counterexample). -/
def claim1CexIng : Ingredient := ⟨some "flour", some (-2), some "cups"⟩

/-- Recipe whose base ingredient has stored quantity `-2 ≤ 0` (C1
counterexample). -/
def claim1CexRecipe : RecipeData := ⟨some "cake", none, some [claim1CexIng], none⟩

/-- Single ingredient with quantity `2` (C2 witness). -/
def claim2Ing : Ingredient := ⟨some "flour", some 2, some "cups"⟩

/-- One-ingredient recipe (C2 witness). -/
def claim2Recipe : RecipeData := ⟨some "cake", none, some [claim2Ing], none⟩

/-- The calculation result for `claim2Recipe` at target `4` (C2 witness). -/
def claim2Res : CalcResult :=
  ⟨4 / 2, [("flour", formatScaledQty ((2 : ℚ) * (4 / 2)), "cups")]⟩

/-- The exact value `0.05 * (1/3) = 1/60` of the spec's small-quantity
scenario (C3). -/
def claim3SmallQty : ℚ := ⟨1, 60, by norm_num, by norm_num⟩

/-- Recipe named "Pancakes" (C5 witness). -/
def claim5Recipe : RecipeData := ⟨some "Pancakes", none, some [], none⟩

/-- One-recipe store listing (C5 witness). -/
def claim5All : List (String × RecipeData) := [("pancakes.json", claim5Recipe)]

/-- Recipe with an empty ingredient list (C7 witness). -/
def claim7Recipe : RecipeData := ⟨some "empty", none, some [], none⟩

/-- Previously stored record under `choc-chip-cookies` (C8 witness). -/
def claim8Old : RecipeData := ⟨some "choc chip cookies", some "old notes", some [], none⟩

/-- Replacement record for the same identifier (C8 witness). -/
def claim8New : RecipeData := ⟨some "choc chip cookies", some "new notes", some [], none⟩

/-- Store that already holds `choc-chip-cookies.json` and whose backing
directory does not yet exist (C8 witness). -/
def claim8Store : Store :=
  ⟨false, fun k => if k = "choc-chip-cookies.json" then some claim8Old else none⟩

/-- Base ingredient whose stored record has no `quantity` field (C10
witness). -/
def claim10Ing : Ingredient := ⟨some "starter", none, some "grams"⟩

/-- Recipe whose first ingredient lacks a quantity (C10 witness). -/
def claim10Recipe : RecipeData :=
  ⟨some "bread", none, some [claim10Ing, ⟨some "flour", some 500, some "grams"⟩], none⟩

/-! ## Helper lemmas -/

lemma ratPointOne_eq : ratPointOne = 1 / 10 := by
  rw [ratPointOne, Rat.mk'_eq_divInt, Rat.divInt_eq_div]
  norm_num

lemma pyTrunc_den_one {q : ℚ} (h : q.den = 1) : (pyTrunc q : ℚ) = q := by
  have hnum : pyTrunc q = q.num := by
    rw [pyTrunc, h]
    simp
  rw [hnum]
  exact Rat.coe_int_num_of_den_eq_one h

lemma eq_pyTrunc_iff (q : ℚ) : q = (pyTrunc q : ℚ) ↔ q.den = 1 := by
  constructor
  · intro h
    rw [h]
    exact Rat.den_intCast _
  · intro h
    exact (pyTrunc_den_one h).symm

lemma validate_nonpos {t : ℚ} (h : t ≤ 0) :
    validateUserTarget t = .error .InvalidInput := if_pos h

lemma validate_pos {t : ℚ} (h : 0 < t) : validateUserTarget t = .ok t :=
  if_neg (not_le.mpr h)

lemma firstIdx_nil_pat (hay : List Char) : firstIdx hay [] = some 0 := by
  cases hay <;> simp [firstIdx, List.isPrefixOf]

lemma firstIdx_some {hay pat : List Char} {i : Nat}
    (h : firstIdx hay pat = some i) :
    pat.isPrefixOf (hay.drop i) = true ∧
      ∀ j, j < i → pat.isPrefixOf (hay.drop j) = false := by
  induction hay generalizing i with
  | nil =>
    rw [firstIdx] at h
    split at h
    · next hp =>
      cases h
      exact ⟨by simpa using hp, fun j hj => absurd hj (Nat.not_lt_zero j)⟩
    · cases h
  | cons c t ih =>
    rw [firstIdx] at h
    split at h
    · next hp =>
      cases h
      exact ⟨by simpa using hp, fun j hj => absurd hj (Nat.not_lt_zero j)⟩
    · next hp =>
      obtain ⟨i', hi', rfl⟩ := Option.map_eq_some'.mp h
      obtain ⟨h1, h2⟩ := ih hi'
      refine ⟨by simpa using h1, ?_⟩
      intro j hj
      cases j with
      | zero => simpa using Bool.not_eq_true _ ▸ (by simpa using hp)
      | succ j' =>
        simpa using h2 j' (Nat.lt_of_succ_lt_succ hj)

lemma firstIdx_none {hay pat : List Char} (h : firstIdx hay pat = none) :
    ∀ j, pat.isPrefixOf (hay.drop j) = false := by
  induction hay with
  | nil =>
    intro j
    rw [firstIdx] at h
    split at h
    · cases h
    · next hp =>
      simp only [List.drop_nil]
      exact Bool.eq_false_iff.mpr hp
  | cons c t ih =>
    intro j
    rw [firstIdx] at h
    split at h
    · cases h
    · next hp =>
      cases j with
      | zero =>
        simp only [List.drop_zero]
        exact Bool.eq_false_iff.mpr hp
      | succ j' =>
        have ht : firstIdx t pat = none := by
          cases hfi : firstIdx t pat with
          | none => rfl
          | some k => rw [hfi] at h; cases h
        simpa using ih ht j'

lemma strContains_iff (hay pat : String) :
    strContains hay pat = true ↔
      ∃ j, pat.data.isPrefixOf (hay.data.drop j) = true := by
  rw [strContains, strFind]
  constructor
  · intro h
    cases hfi : firstIdx hay.data pat.data with
    | none => rw [hfi] at h; cases h
    | some i => exact ⟨i, (firstIdx_some hfi).1⟩
  · rintro ⟨j, hj⟩
    cases hfi : firstIdx hay.data pat.data with
    | none => rw [firstIdx_none hfi j] at hj; cases hj
    | some i => simp [hfi]

lemma replaceAllAux_singleton (a b : Char) (s : List Char) :
    ∀ fuel, s.length ≤ fuel →
      replaceAllAux [a] [b] fuel s
        = s.map (fun c => if c = a then b else c) := by
  induction s with
  | nil =>
    intro fuel _
    cases fuel <;> simp [replaceAllAux]
  | cons c t ih =>
    intro fuel hf
    match fuel with
    | 0 => simp at hf
    | f + 1 =>
      rw [replaceAllAux]
      by_cases hca : a = c
      · rw [if_pos ⟨by simp, by simp [List.isPrefixOf, hca]⟩]
        simp only [List.length_cons, List.length_nil, List.drop_succ_cons,
          List.drop_zero, List.map_cons]
        rw [if_pos hca.symm, ih f (Nat.le_of_succ_le_succ hf)]
        rfl
      · rw [if_neg (by
          rintro ⟨-, hpre⟩
          apply hca
          have : (a == c && true) = true := by
            simpa [List.isPrefixOf] using hpre
          simpa using this)]
        simp only [List.map_cons]
        rw [if_neg (fun hc => hca hc.symm), ih f (Nat.le_of_succ_le_succ hf)]

lemma pyReplace_space_hyphen (s : String) :
    (pyReplace s " " "-").data
      = s.data.map (fun c => if c = ' ' then '-' else c) :=
  replaceAllAux_singleton ' ' '-' s.data s.data.length le_rfl

lemma perform_ok_rows_length {recipe : RecipeData} {t : ℚ} {res : CalcResult}
    (h : performRecipeCalculation recipe t = .ok res) :
    res.rows.length = (recipe.ingredients.getD []).length := by
  rw [performRecipeCalculation] at h
  split at h
  · cases h
  · next base rest heq =>
    split at h
    · cases h
    · dsimp only at h
      split at h
      · cases h
      · cases h
        simp [scaleIngredients, heq]

/-! ## Claims -/

/-- C1 (amended): the input loop rejects a non-positive user target with
`InvalidInput` before any division; for a positive target the code
divides by whatever base quantity is stored: when it is non-zero —
including negative values, for which the claimed `InvalidInput` rejection
does not exist — the calculation succeeds with factor
`user_target / base_quantity`, and when it is zero the division raises an
unguarded `ZeroDivisionError` rather than failing with `InvalidInput`. -/
theorem claim1_scale_factor (recipe : RecipeData) (base : Ingredient)
    (rest : List Ingredient) (t : ℚ)
    (hing : recipe.ingredients.getD [] = base :: rest) :
    (t ≤ 0 → performRecipeCalculation recipe t = .error .InvalidInput) ∧
    (0 < t → base.quantity.getD 1 = 0 →
      performRecipeCalculation recipe t = .error .ZeroDivision) ∧
    (0 < t → base.quantity.getD 1 ≠ 0 →
      (performRecipeCalculation recipe t).map (fun r => r.scalingFactor)
        = .ok (t / base.quantity.getD 1)) := by
  refine ⟨fun ht => ?_, fun ht hbq => ?_, fun ht hbq => ?_⟩
  · simp [performRecipeCalculation, hing, validate_nonpos ht]
  · simp [performRecipeCalculation, hing, validate_pos ht, hbq]
  · simp [performRecipeCalculation, hing, validate_pos ht, hbq, Except.map]

/-- Witness for C1 at base quantity `2`, target `4`: factor `4 / 2`. -/
theorem claim1_scale_factor_witness :
    (0 : ℚ) < 4 ∧ claim1Ing.quantity.getD 1 ≠ 0 ∧
    (performRecipeCalculation claim1Recipe 4).map (fun r => r.scalingFactor)
      = .ok ((4 : ℚ) / claim1Ing.quantity.getD 1) :=
  ⟨by norm_num, by decide,
   (claim1_scale_factor claim1Recipe claim1Ing [] 4 rfl).2.2 (by norm_num) (by decide)⟩

/-- C1 counterexample: with stored base quantity `-2 ≤ 0` and the valid
target `1`, the code does not fail with `InvalidInput`: the division is
performed on the non-positive base quantity and the calculation succeeds
with factor `1 / (-2) = -0.5`. -/
theorem claim1_scale_factor_counterexample :
    performRecipeCalculation claim1CexRecipe 1 ≠ .error .InvalidInput ∧
    (performRecipeCalculation claim1CexRecipe 1).map (fun r => r.scalingFactor)
      = .ok (-(1/2) : ℚ) := by
  have h2 : (1 : ℚ) / (-2) = -(1/2) := by norm_num
  have h : (performRecipeCalculation claim1CexRecipe 1).map (fun r => r.scalingFactor)
      = .ok (-(1/2) : ℚ) := by
    norm_num [performRecipeCalculation, claim1CexRecipe, claim1CexIng,
      validateUserTarget, h2, Except.map]
  refine ⟨fun hc => ?_, h⟩
  rw [hc] at h
  simp [Except.map] at h

/-- C7: a recipe whose ingredient list is empty (or absent) is rejected
with `NoIngredients` for every target — even a non-positive one — so the
empty check precedes the target validation, the scale-factor division and
all scaling arithmetic. -/
theorem claim7_no_ingredients (recipe : RecipeData) (t : ℚ)
    (h : recipe.ingredients.getD [] = []) :
    performRecipeCalculation recipe t = .error .NoIngredients := by
  simp [performRecipeCalculation, h]

/-- Witness for C7: the empty-ingredient recipe at the (invalid) target
`-5` still fails with `NoIngredients`, not `InvalidInput`. -/
theorem claim7_no_ingredients_witness :
    claim7Recipe.ingredients.getD [] = [] ∧
    performRecipeCalculation claim7Recipe (-5) = .error .NoIngredients :=
  ⟨rfl, claim7_no_ingredients claim7Recipe (-5) rfl⟩

/-- C10: when the stored base ingredient has no `quantity` field, the
record is not rejected: the default `1.0` of line 710 is substituted, so
for every positive target the calculation succeeds and the scale factor
equals the target exactly. -/
theorem claim10_default_base_quantity (recipe : RecipeData)
    (base : Ingredient) (rest : List Ingredient) (t : ℚ)
    (hing : recipe.ingredients.getD [] = base :: rest)
    (hq : base.quantity = none) (ht : 0 < t) :
    (performRecipeCalculation recipe t).map (fun r => r.scalingFactor)
      = .ok t := by
  simp [performRecipeCalculation, hing, validate_pos ht, hq, Except.map]

/-- Witness for C10: a recipe whose base ingredient lacks a quantity,
scaled to target `7`, yields factor `7`. -/
theorem claim10_default_base_quantity_witness :
    claim10Ing.quantity = none ∧ (0 : ℚ) < 7 ∧
    (performRecipeCalculation claim10Recipe 7).map (fun r => r.scalingFactor)
      = .ok 7 :=
  ⟨rfl, by norm_num,
   claim10_default_base_quantity claim10Recipe claim10Ing
     [⟨some "flour", some 500, some "grams"⟩] 7 rfl rfl (by norm_num)⟩

/-- C2: scaling maps the ingredient list pointwise — the output has the
same length as the input, the i-th output row is the scaled i-th input
ingredient (names and units passed through in order), the i-th output
quantity is the i-th input quantity (with the source's `get` default)
times the factor, and a successful calculation renders exactly one table
row per stored ingredient, so nothing is dropped or merged even when a
scaled quantity rounds to zero. -/
theorem claim2_scale_shape (l : List Ingredient) (f : ℚ) (i : Nat)
    (recipe : RecipeData) (t : ℚ) (res : CalcResult)
    (hok : performRecipeCalculation recipe t = .ok res) :
    (scaleIngredients l f).length = l.length ∧
    (scaleIngredients l f)[i]? = l[i]?.map (scaleIngredient f) ∧
    ((scaleIngredients l f)[i]?).map (fun r => r.2.1)
      = (l[i]?).map (fun ing => ing.quantity.getD 0 * f) ∧
    res.rows.length = (recipe.ingredients.getD []).length := by
  refine ⟨by simp [scaleIngredients], ?_, ?_, perform_ok_rows_length hok⟩
  · exact List.getElem?_map (scaleIngredient f) l i
  · rw [scaleIngredients, List.getElem?_map]
    cases l[i]? <;> simp [scaleIngredient]

/-- Witness for C2 on a one-ingredient recipe with quantity `2`, factor
`2` and target `4`. -/
theorem claim2_scale_shape_witness :
    (scaleIngredients [claim2Ing] 2).length = [claim2Ing].length ∧
    (scaleIngredients [claim2Ing] 2)[0]? = [claim2Ing][0]?.map (scaleIngredient 2) ∧
    ((scaleIngredients [claim2Ing] 2)[0]?).map (fun r => r.2.1)
      = ([claim2Ing][0]?).map (fun ing => ing.quantity.getD 0 * 2) ∧
    claim2Res.rows.length = (claim2Recipe.ingredients.getD []).length :=
  claim2_scale_shape [claim2Ing] 2 0 claim2Recipe 4 claim2Res rfl

/-- C3: the scaled-quantity display rule — an integral value is rendered
with no decimal part (as `str(int(q))`, i.e. the plain integer); a
non-integral value at least `0.1` is rendered with 2 decimal digits and
trailing zeros then a trailing point stripped; a non-integral value
strictly below `0.1` is rendered with 3 decimal digits, stripped the same
way; in particular `1.0` renders as `"1"` and `0.05 * (1/3)` renders as
`"0.017"`. -/
theorem claim3_format_rule (q : ℚ) :
    (q.den = 1 → formatScaledQty q = toString q.num) ∧
    (q.den ≠ 1 → q < 1/10 → formatScaledQty q = stripTrailing (pyFormatF 3 q)) ∧
    (q.den ≠ 1 → ¬ q < 1/10 → formatScaledQty q = stripTrailing (pyFormatF 2 q)) ∧
    formatScaledQty 1 = "1" ∧
    formatScaledQty ((1/20) * (1/3)) = "0.017" := by
  have hsmall : ((1:ℚ)/20) * (1/3) = claim3SmallQty := by
    rw [claim3SmallQty, Rat.mk'_eq_divInt, Rat.divInt_eq_div]
    norm_num
  refine ⟨fun h => ?_, fun h1 h2 => ?_, fun h1 h2 => ?_, by decide, ?_⟩
  · have hnum : pyTrunc q = q.num := by rw [pyTrunc, h]; simp
    rw [formatScaledQty, if_pos ((eq_pyTrunc_iff q).mpr h), hnum]
  · rw [formatScaledQty, if_neg (fun hc => h1 ((eq_pyTrunc_iff q).mp hc)),
      if_pos (by rw [ratPointOne_eq]; exact h2)]
  · rw [formatScaledQty, if_neg (fun hc => h1 ((eq_pyTrunc_iff q).mp hc)),
      if_neg (by rw [ratPointOne_eq]; exact h2)]
  · rw [hsmall]
    decide

/-- Witness for C3 at the small non-integral value `1/60`:
the 3-decimal branch applies and yields `"0.017"`. -/
theorem claim3_format_rule_witness :
    claim3SmallQty.den ≠ 1 ∧ claim3SmallQty < 1/10 ∧
    formatScaledQty claim3SmallQty = stripTrailing (pyFormatF 3 claim3SmallQty) :=
  ⟨by decide,
   by rw [claim3SmallQty, Rat.mk'_eq_divInt, Rat.divInt_eq_div]; norm_num,
   (claim3_format_rule claim3SmallQty).2.1 (by decide)
     (by rw [claim3SmallQty, Rat.mk'_eq_divInt, Rat.divInt_eq_div]; norm_num)⟩

/-- C4: the preview and full-display formatters are the same function,
but the scaled-display formatter is not equal to them: at the value
`0.017` the preview and full sites render `"0.02"` (2 decimals) while the
scaled site renders `"0.017"` (3 decimals), so the three call sites do
not implement one identical pure formatting function, contrary to the
spec's uniformity requirement. -/
theorem claim4_formatter_not_uniform :
    (∀ q : ℚ, formatQtyPreview q = formatQtyFull q) ∧
    formatQtyPreview (17/1000) = "0.02" ∧
    formatQtyFull (17/1000) = "0.02" ∧
    formatScaledQty (17/1000) = "0.017" := by
  have h17 : (17/1000 : ℚ) = (⟨17, 1000, by norm_num, by norm_num⟩ : ℚ) := by
    rw [Rat.mk'_eq_divInt, Rat.divInt_eq_div]
    norm_num
  refine ⟨fun q => rfl, ?_, ?_, ?_⟩ <;> rw [h17] <;> decide

/-- C5: for every recipe list and non-empty search term matching nothing,
the filter itself returns the empty sequence — it never substitutes the
unfiltered list — and it is the surrounding presentation flow
(`displayedRecipes`, with its "Showing all recipes" message) that decides
to fall back to the full list. -/
theorem claim5_empty_filter_no_fallback (all : List (String × RecipeData))
    (term : String) (hterm : term ≠ "")
    (hnone : ∀ e ∈ all, strContainsCI (entryDisplayName e) term = false) :
    filterRecipes all term = [] ∧ displayedRecipes all term = all := by
  have hnil : filterRecipes all term = [] := by
    rw [filterRecipes, List.filter_eq_nil_iff]
    intro e he
    simp [hnone e he]
  refine ⟨hnil, ?_⟩
  rw [displayedRecipes, if_neg hterm]
  simp [hnil]

/-- Witness for C5: a one-recipe list searched for `"xyz-no-match"`. -/
theorem claim5_empty_filter_no_fallback_witness :
    ("xyz-no-match" : String) ≠ "" ∧
    (∀ e ∈ claim5All, strContainsCI (entryDisplayName e) "xyz-no-match" = false) ∧
    filterRecipes claim5All "xyz-no-match" = [] ∧
    displayedRecipes claim5All "xyz-no-match" = claim5All :=
  ⟨by decide, by decide,
   (claim5_empty_filter_no_fallback claim5All "xyz-no-match" (by decide) (by decide)).1,
   (claim5_empty_filter_no_fallback claim5All "xyz-no-match" (by decide) (by decide)).2⟩

/-- C6: the filter keeps exactly the entries whose display name contains
the term as a case-insensitive substring, preserving the input order; the
containment test means exactly "the lowered term occurs at some offset of
the lowered (hence equally long) name"; an empty term filters nothing and
produces no span; a matching non-empty term always produces a span; and a
produced span `(s, e)` satisfies `e = s + length term` where `s` is the
offset of the first — i.e. least — case-insensitive occurrence of the
term in the original-cased name. -/
theorem claim6_filter_and_span (all : List (String × RecipeData))
    (term name : String) (s e : Nat) :
    (∀ x, x ∈ filterRecipes all term ↔
        x ∈ all ∧ strContainsCI (entryDisplayName x) term = true) ∧
    (filterRecipes all term).Sublist all ∧
    (strContainsCI name term = true ↔
      ∃ j, (pyLower term).data.isPrefixOf ((pyLower name).data.drop j) = true) ∧
    filterRecipes all "" = all ∧
    matchSpan name "" = none ∧
    (term ≠ "" → strContainsCI name term = true →
      (matchSpan name term).isSome = true) ∧
    (matchSpan name term = some (s, e) →
      e = s + term.length ∧
      (pyLower term).data.isPrefixOf ((pyLower name).data.drop s) = true ∧
      ∀ j, j < s →
        (pyLower term).data.isPrefixOf ((pyLower name).data.drop j) = false) := by
  refine ⟨fun x => List.mem_filter, List.filter_sublist all, ?_, ?_, rfl, ?_, ?_⟩
  · exact strContains_iff (pyLower name) (pyLower term)
  · rw [filterRecipes]
    apply List.filter_eq_self.mpr
    intro a _
    show strContainsCI (entryDisplayName a) "" = true
    rw [strContainsCI, strContains, strFind,
      show (pyLower "").data = [] from rfl, firstIdx_nil_pat]
    rfl
  · intro ht hc
    rw [matchSpan, if_neg ht, if_pos hc]
    rw [strContainsCI, strContains] at hc
    cases hfi : strFind (pyLower name) (pyLower term) with
    | none => rw [hfi] at hc; cases hc
    | some i => simp [hfi]
  · intro hsp
    rw [matchSpan] at hsp
    split at hsp
    · cases hsp
    · split at hsp
      · cases hfi : strFind (pyLower name) (pyLower term) with
        | none => rw [hfi] at hsp; cases hsp
        | some i =>
          rw [hfi] at hsp
          cases hsp
          obtain ⟨h1, h2⟩ := firstIdx_some hfi
          exact ⟨rfl, h1, h2⟩
      · cases hsp

/-- Witness for C6: searching `"cake"` in `"PanCakes"` yields the span
`(3, 7)`, which is the first case-insensitive occurrence. -/
theorem claim6_filter_and_span_witness :
    matchSpan "PanCakes" "cake" = some (3, 7) ∧
    (7 = 3 + ("cake" : String).length ∧
     (pyLower "cake").data.isPrefixOf ((pyLower "PanCakes").data.drop 3) = true ∧
     ∀ j, j < 3 →
       (pyLower "cake").data.isPrefixOf ((pyLower "PanCakes").data.drop j) = false) :=
  ⟨by decide,
   (claim6_filter_and_span [] "cake" "PanCakes" 3 7).2.2.2.2.2.2 (by decide)⟩

/-- C8: saving under an already-present identifier with `overwrite=false`
fails with `AlreadyExists` and leaves every stored file unchanged; with
`overwrite=true` the save succeeds, a subsequent load of the identifier
returns the newly saved record, and the backing directory exists
afterwards (it is created by the save flow when missing). -/
theorem claim8_save_semantics (st : Store) (identifier : String)
    (r : RecipeData)
    (hpresent : (st.files (resourceKey identifier)).isSome = true) :
    (save st identifier r false).2 = some .AlreadyExists ∧
    (save st identifier r false).1.files = st.files ∧
    (save st identifier r true).2 = none ∧
    load (save st identifier r true).1 identifier = some r ∧
    (save st identifier r true).1.dirExists = true := by
  have hno : ¬ (((st.files (resourceKey identifier)).isSome = true) ∧
      true = false) := fun h => Bool.noConfusion h.2
  refine ⟨?_, ?_, ?_, ?_, ?_⟩
  · simp only [save]
    rw [if_pos ⟨hpresent, trivial⟩]
  · simp only [save]
    rw [if_pos ⟨hpresent, trivial⟩]
  · simp only [save]
    rw [if_neg hno]
  · simp only [load, save]
    rw [if_neg hno]
    simp
  · simp only [save]
    rw [if_neg hno]

/-- Witness for C8 with the identifier `choc-chip-cookies` already
present in the store. -/
theorem claim8_save_semantics_witness :
    (claim8Store.files (resourceKey "choc-chip-cookies")).isSome = true ∧
    (save claim8Store "choc-chip-cookies" claim8New false).2 = some .AlreadyExists ∧
    (save claim8Store "choc-chip-cookies" claim8New false).1.files = claim8Store.files ∧
    (save claim8Store "choc-chip-cookies" claim8New true).2 = none ∧
    load (save claim8Store "choc-chip-cookies" claim8New true).1 "choc-chip-cookies"
      = some claim8New ∧
    (save claim8Store "choc-chip-cookies" claim8New true).1.dirExists = true := by
  have hp : (claim8Store.files (resourceKey "choc-chip-cookies")).isSome = true := by
    decide
  obtain ⟨h1, h2, h3, h4, h5⟩ :=
    claim8_save_semantics claim8Store "choc-chip-cookies" claim8New hp
  exact ⟨hp, h1, h2, h3, h4, h5⟩

/-- C9 (amended): the storage identifier is the display name lower-cased,
trimmed of surrounding whitespace, with **each** internal space replaced
by one hyphen — a run of k spaces becomes k hyphens, not one — and the
resource key is the identifier plus the `.json` extension; e.g.
`"  Choc  Chip  "` maps to `"choc--chip"`. -/
theorem claim9_identifier_derivation (name : String) :
    (deriveRecipeIdentifier name).data
      = (pyStrip (pyLower name)).data.map (fun c => if c = ' ' then '-' else c) ∧
    resourceKey (deriveRecipeIdentifier name)
      = deriveRecipeIdentifier name ++ ".json" ∧
    deriveRecipeIdentifier "  Choc  Chip  " = "choc--chip" :=
  ⟨pyReplace_space_hyphen _, rfl, by decide⟩

/-- C9 counterexample: a name with a run of two internal spaces maps to
two hyphens, not the single collapsed hyphen the claim states. -/
theorem claim9_identifier_derivation_counterexample :
    deriveRecipeIdentifier "a  b" = "a--b" ∧
    deriveRecipeIdentifier "a  b" ≠ "a-b" := by
  decide

end Recipes
